import Mathlib

/-!
Shallow embedding of the Arch Linux installer wizard (`src/main.rs`):
the question catalog, the session state held by `run_app`'s event loop,
the key-event transition logic, and the control flow of `main` around
terminal setup and teardown.  All definitions are translated from the
source; theorems at the end of the file settle the specification claims.
-/

set_option linter.unusedVariables false

/-- The subset of `ratatui::style::Color` values used by the program's
three preset themes (`Theme::default`, `Theme::dark`, `Theme::light`). -/
inductive RColor
  | Reset
  | White
  | Yellow
  | Green
  | Gray
  | Black
  | Blue
  | Red
  | DarkGray
deriving DecidableEq, Repr

/-- `struct Theme` (main.rs lines 53-60): the five named color roles. -/
structure Theme where
  background : RColor
  foreground : RColor
  highlight : RColor
  accent : RColor
  text : RColor
deriving DecidableEq, Repr

/-- `Theme::default()` (main.rs lines 63-71). -/
def Theme.default : Theme :=
  { background := RColor.Reset
    foreground := RColor.White
    highlight := RColor.Yellow
    accent := RColor.Green
    text := RColor.Gray }

/-- `Theme::dark()` (main.rs lines 73-81). -/
def Theme.dark : Theme :=
  { background := RColor.Black
    foreground := RColor.White
    highlight := RColor.Yellow
    accent := RColor.Blue
    text := RColor.Gray }

/-- `Theme::light()` (main.rs lines 83-91). -/
def Theme.light : Theme :=
  { background := RColor.White
    foreground := RColor.Black
    highlight := RColor.Red
    accent := RColor.Blue
    text := RColor.DarkGray }

/-- The theme-cycling match on `config.theme.background` performed by the
handler of the Char star key (main.rs lines 434-438). -/
def cycleTheme (t : Theme) : Theme :=
  match t.background with
  | RColor.Reset => Theme.dark
  | RColor.Black => Theme.light
  | _ => Theme.default

/-- `struct ArchConfig` (main.rs lines 24-40): the accumulating result
record.  The serde-skipped `theme` field lives here exactly as in the
source. -/
structure ArchConfig where
  hostname : String
  username : String
  password : String
  timezone : String
  locale : String
  keyboard_layout : String
  format_type : String
  package_manager : String
  bootloader : String
  desktop_environment : String
  reflector_country : String
  enable_ssh : Bool
  theme : Theme
deriving DecidableEq, Repr

/-- The initial `ArchConfig` built in `main` (main.rs lines 110-124). -/
def initialConfig : ArchConfig :=
  { hostname := ""
    username := ""
    password := ""
    timezone := ""
    locale := ""
    keyboard_layout := ""
    format_type := ""
    package_manager := ""
    bootloader := ""
    desktop_environment := ""
    reflector_country := ""
    enable_ssh := false
    theme := Theme.default }

/-- `enum QuestionType` (main.rs lines 42-46). -/
inductive QuestionType
  | MultipleChoice (options : List String)
  | FreeText
  | Boolean
deriving DecidableEq, Repr

/-- `struct Question` (main.rs lines 48-51). -/
structure Question where
  prompt : String
  question_type : QuestionType
deriving DecidableEq, Repr

/-- The static 12-question catalog built at the top of `run_app`
(main.rs lines 190-263), with the exact prompts and option strings. -/
def questions : List Question :=
  [ { prompt := "Hostname", question_type := QuestionType.FreeText },
    { prompt := "Username", question_type := QuestionType.FreeText },
    { prompt := "Password", question_type := QuestionType.FreeText },
    { prompt := "Timezone"
      question_type := QuestionType.MultipleChoice
        ["UTC", "America/New_York", "Europe/London", "Asia/Tokyo", "Australia/Sydney"] },
    { prompt := "Locale"
      question_type := QuestionType.MultipleChoice
        ["en_US.UTF-8", "de_DE.UTF-8", "fr_FR.UTF-8", "ja_JP.UTF-8", "zh_CN.UTF-8"] },
    { prompt := "Keyboard Layout"
      question_type := QuestionType.MultipleChoice ["us", "de", "fr", "es", "jp"] },
    { prompt := "Format Type"
      question_type := QuestionType.MultipleChoice ["btrfs", "ext4", "xfs"] },
    { prompt := "Package Manager"
      question_type := QuestionType.MultipleChoice ["pacman", "yay", "paru"] },
    { prompt := "Bootloader"
      question_type := QuestionType.MultipleChoice ["grub", "systemd-boot"] },
    { prompt := "Desktop Environment"
      question_type := QuestionType.MultipleChoice ["gnome", "kde", "xfce", "dwm", "wayland"] },
    { prompt := "Reflector Country"
      question_type := QuestionType.MultipleChoice ["US", "DE", "FR", "CA", "JP"] },
    { prompt := "Enable SSH", question_type := QuestionType.Boolean } ]

/-- The `question_type` of the catalog entry at index `i`, when it exists. -/
def questionKind (i : Nat) : Option QuestionType :=
  (questions[i]?).map Question.question_type

/-- Rust `str::to_lowercase` restricted to the program's data: every
catalog option string and every typed filter character is compared after
per-character lowercasing; on the ASCII strings of this catalog Rust's
Unicode lowercasing coincides with `Char.toLower` applied charwise. -/
def rustToLowercase (s : String) : String :=
  String.mk (s.data.map Char.toLower)

/-- Whether `needle` is a leading segment of `hay` (character lists). -/
def strStartsWith : List Char → List Char → Bool
  | [], _ => true
  | _ :: _, [] => false
  | a :: as, b :: bs => a == b && strStartsWith as bs

/-- Whether `needle` occurs contiguously inside `hay`:
Rust `str::contains(&str)` substring search on character lists. -/
def listContainsSub (needle : List Char) : List Char → Bool
  | [] => strStartsWith needle []
  | c :: t => strStartsWith needle (c :: t) || listContainsSub needle t

/-- Rust `hay.contains(needle)` for strings. -/
def rustContains (hay needle : String) : Bool :=
  listContainsSub needle.data hay.data

/-- The option filter applied both when rendering and on Enter
(main.rs lines 316-319 and 446-449):
`options.iter().filter(|o| o.to_lowercase().contains(&filter.to_lowercase()))`. -/
def filterOptions (options : List String) (filter : String) : List String :=
  options.filter (fun option => rustContains (rustToLowercase option) (rustToLowercase filter))

/-- The mutable locals of `run_app`'s event loop (main.rs lines 266-269):
`current_question`, `selected_option`, `input_value`, `filter`, plus the
`ArchConfig` being filled in (which carries the theme). -/
structure SessState where
  current_question : Nat
  selected_option : Nat
  input_value : String
  filter : String
  config : ArchConfig
deriving DecidableEq, Repr

/-- Session state at loop entry: indexes 0, nothing typed, the initial
config from `main`. -/
def initialState : SessState :=
  { current_question := 0
    selected_option := 0
    input_value := ""
    filter := ""
    config := initialConfig }

/-- The key codes distinguished by the `match key.code` in `run_app`
(main.rs lines 430-517).  `Other` stands for every unhandled code. -/
inductive KeyCode
  | Enter
  | Up
  | Down
  | Backspace
  | Char (c : Char)
  | Other
deriving DecidableEq, Repr

/-- Outcome of handling one key event inside the loop:
keep looping (`cont`), return early from `run_app` (`quit`, the tilde
key), `break` out to the persistence code (`done`), or a panic from an
out-of-bounds `Vec` index (`crash`). -/
inductive StepOut
  | cont (s : SessState)
  | quit (s : SessState)
  | done (s : SessState)
  | crash
deriving DecidableEq, Repr

/-- The `selected_value` computed on Enter (main.rs lines 444-456).
`none` models the panics: `questions[current_question]` out of range, or
`filtered_options[selected_option]` on a too-short filtered list. -/
def selectedValue (s : SessState) : Option String :=
  match questions[s.current_question]? with
  | none => none
  | some q =>
    match q.question_type with
    | QuestionType.MultipleChoice options =>
      (filterOptions options s.filter).get? s.selected_option
    | QuestionType.FreeText => some s.input_value
    | QuestionType.Boolean =>
      some (if s.selected_option = 0 then "true" else "false")

/-- The `match current_question` that stores `selected_value` into the
config field for the current question (main.rs lines 458-472). -/
def writeField (cfg : ArchConfig) (idx : Nat) (v : String) : ArchConfig :=
  if idx = 0 then { cfg with hostname := v }
  else if idx = 1 then { cfg with username := v }
  else if idx = 2 then { cfg with password := v }
  else if idx = 3 then { cfg with timezone := v }
  else if idx = 4 then { cfg with locale := v }
  else if idx = 5 then { cfg with keyboard_layout := v }
  else if idx = 6 then { cfg with format_type := v }
  else if idx = 7 then { cfg with package_manager := v }
  else if idx = 8 then { cfg with bootloader := v }
  else if idx = 9 then { cfg with desktop_environment := v }
  else if idx = 10 then { cfg with reflector_country := v }
  else if idx = 11 then { cfg with enable_ssh := v == "true" }
  else cfg

/-- The tail of the Enter handler once `selected_value` is available
(main.rs lines 458-479): store the field, advance `current_question`,
reset `selected_option`, clear both buffers, and `break` when every
question has been answered. -/
def commitStep (s : SessState) (v : String) : StepOut :=
  let s' : SessState :=
    { current_question := s.current_question + 1
      selected_option := 0
      input_value := ""
      filter := ""
      config := writeField s.config s.current_question v }
  if s.current_question + 1 ≥ questions.length then StepOut.done s' else StepOut.cont s'

/-- The whole `KeyCode::Enter` arm (main.rs lines 442-480). -/
def enterStep (s : SessState) : StepOut :=
  match selectedValue s with
  | none => StepOut.crash
  | some v => commitStep s v

/-- The `KeyCode::Up | KeyCode::Down` arm (main.rs lines 482-495):
`option_count` is the UNFILTERED option count for MultipleChoice, 2 for
Boolean, 0 for FreeText. -/
def arrowStep (s : SessState) (isUp : Bool) : StepOut :=
  match questions[s.current_question]? with
  | none => StepOut.crash
  | some q =>
    let option_count :=
      match q.question_type with
      | QuestionType.MultipleChoice options => options.length
      | QuestionType.Boolean => 2
      | QuestionType.FreeText => 0
    if option_count > 0 then
      if isUp && decide (0 < s.selected_option) then
        StepOut.cont { s with selected_option := s.selected_option - 1 }
      else if !isUp && decide (s.selected_option < option_count - 1) then
        StepOut.cont { s with selected_option := s.selected_option + 1 }
      else StepOut.cont s
    else StepOut.cont s

/-- The `KeyCode::Char(c)` text-input arm (main.rs lines 496-505),
reached for characters other than the star and tilde bindings:
append to `input_value` for FreeText, append to `filter` and reset
`selected_option` for MultipleChoice, ignore for Boolean. -/
def charInputStep (s : SessState) (c : Char) : StepOut :=
  match questions[s.current_question]? with
  | none => StepOut.crash
  | some q =>
    match q.question_type with
    | QuestionType.FreeText => StepOut.cont { s with input_value := s.input_value.push c }
    | QuestionType.MultipleChoice _ =>
      StepOut.cont { s with filter := s.filter.push c, selected_option := 0 }
    | QuestionType.Boolean => StepOut.cont s

/-- Rust `String::pop`: drop the last character, no-op on empty. -/
def stringPop (s : String) : String :=
  String.mk s.data.dropLast

/-- The `KeyCode::Backspace` arm (main.rs lines 506-515). -/
def backspaceStep (s : SessState) : StepOut :=
  match questions[s.current_question]? with
  | none => StepOut.crash
  | some q =>
    match q.question_type with
    | QuestionType.FreeText => StepOut.cont { s with input_value := stringPop s.input_value }
    | QuestionType.MultipleChoice _ =>
      StepOut.cont { s with filter := stringPop s.filter, selected_option := 0 }
    | QuestionType.Boolean => StepOut.cont s

/-- One iteration of the `match key.code` dispatch (main.rs lines
430-517).  The star and tilde characters are matched before the general
`Char(c)` arm, exactly as the source's pattern order does. -/
def step (s : SessState) (key : KeyCode) : StepOut :=
  match key with
  | KeyCode.Char c =>
    if c = '*' then
      StepOut.cont { s with config := { s.config with theme := cycleTheme s.config.theme } }
    else if c = '~' then StepOut.quit s
    else charInputStep s c
  | KeyCode.Enter => enterStep s
  | KeyCode.Up => arrowStep s true
  | KeyCode.Down => arrowStep s false
  | KeyCode.Backspace => backspaceStep s
  | KeyCode.Other => StepOut.cont s

/-- Outcome of running the event loop on a finite list of key events:
still waiting for input (`inLoop`), returned early via the tilde key
(`quitOk`, nothing persisted), fell out of the loop and executed the
single `toml::to_string_pretty` + `fs::write` call (`persisted`, main.rs
lines 520-522), or panicked (`panicked`). -/
inductive RunOut
  | inLoop (s : SessState)
  | quitOk (s : SessState)
  | persisted (cfg : ArchConfig)
  | panicked
deriving DecidableEq, Repr

/-- Ghost trace bookkeeping: a successful Enter appends the pair
(question index, committed value) to the commit log; every other event
leaves the log alone. -/
def commitLogAppend (s : SessState) (k : KeyCode) (log : List (Nat × String)) :
    List (Nat × String) :=
  match k, selectedValue s with
  | KeyCode.Enter, some v => log ++ [(s.current_question, v)]
  | _, _ => log

/-- The event loop of `run_app` (main.rs lines 272-519) followed by its
one persistence call (lines 520-522), driven by a finite event list and
carrying the ghost commit log. -/
def runEvents : SessState → List KeyCode → List (Nat × String) →
    RunOut × List (Nat × String)
  | s, [], log => (RunOut.inLoop s, log)
  | s, k :: ks, log =>
    match step s k with
    | StepOut.cont s' => runEvents s' ks (commitLogAppend s k log)
    | StepOut.quit s' => (RunOut.quitOk s', commitLogAppend s k log)
    | StepOut.done s' => (RunOut.persisted s'.config, commitLogAppend s k log)
    | StepOut.crash => (RunOut.panicked, commitLogAppend s k log)

/-- The configuration the run persisted, if it reached persistence. -/
def persistedOf : RunOut → Option ArchConfig
  | RunOut.persisted cfg => some cfg
  | _ => none

/-- The size of the visible (filtered) option set of the current
question: length of `filtered_options` for MultipleChoice, 2 for the
literal Yes/No list of Boolean, 0 otherwise. -/
def visibleOptionCount (s : SessState) : Nat :=
  match questions[s.current_question]? with
  | none => 0
  | some q =>
    match q.question_type with
    | QuestionType.MultipleChoice options => (filterOptions options s.filter).length
    | QuestionType.Boolean => 2
    | QuestionType.FreeText => 0

/-- Which terminal-restore statements of `main` actually executed. -/
structure TerminalRestore where
  raw_mode_disabled : Bool
  left_alternate_screen : Bool
  cursor_shown : Bool
deriving DecidableEq, Repr

/-- Control flow of `main` after terminal setup (main.rs lines 127-137):
`run_app(&mut terminal, &mut config)?;` propagates an error with `?`
immediately, so `disable_raw_mode`, `LeaveAlternateScreen` /
`DisableMouseCapture`, and `show_cursor` (lines 130-136) run only when
`run_app` returned `Ok`. -/
def mainCleanup (runAppResult : Except String Unit) :
    TerminalRestore × Except String Unit :=
  match runAppResult with
  | Except.error e =>
    ({ raw_mode_disabled := false, left_alternate_screen := false, cursor_shown := false },
      Except.error e)
  | Except.ok _ =>
    ({ raw_mode_disabled := true, left_alternate_screen := true, cursor_shown := true },
      Except.ok ())

/-- Answer-field agreement between two configs: the twelve persisted
fields coincide (the serde-skipped theme is allowed to differ). -/
def answersEq (a b : ArchConfig) : Prop :=
  a.hostname = b.hostname ∧ a.username = b.username ∧ a.password = b.password ∧
  a.timezone = b.timezone ∧ a.locale = b.locale ∧ a.keyboard_layout = b.keyboard_layout ∧
  a.format_type = b.format_type ∧ a.package_manager = b.package_manager ∧
  a.bootloader = b.bootloader ∧ a.desktop_environment = b.desktop_environment ∧
  a.reflector_country = b.reflector_country ∧ a.enable_ssh = b.enable_ssh

/-- The config field for question `idx` holds exactly the committed
string `v` (for the Boolean question 11, the bool it parses to). -/
def fieldMatches (cfg : ArchConfig) (idx : Nat) (v : String) : Prop :=
  if idx = 0 then cfg.hostname = v
  else if idx = 1 then cfg.username = v
  else if idx = 2 then cfg.password = v
  else if idx = 3 then cfg.timezone = v
  else if idx = 4 then cfg.locale = v
  else if idx = 5 then cfg.keyboard_layout = v
  else if idx = 6 then cfg.format_type = v
  else if idx = 7 then cfg.package_manager = v
  else if idx = 8 then cfg.bootloader = v
  else if idx = 9 then cfg.desktop_environment = v
  else if idx = 10 then cfg.reflector_country = v
  else if idx = 11 then cfg.enable_ssh = (v == "true")
  else True

/-- Membership in the visible option set, transcribed from the spec's
words: the option's text contains the filter text as a case-insensitive
substring (a contiguous run of characters, compared lowercased). -/
def specCaseInsensitiveSubstring (option filter : String) : Prop :=
  ∃ pre post, (rustToLowercase option).data =
    pre ++ (rustToLowercase filter).data ++ post

/-! ### Helper lemmas -/

theorem questions_length : questions.length = 12 := rfl

theorem startsWith_iff (needle : List Char) :
    ∀ hay : List Char, strStartsWith needle hay = true ↔ ∃ post, hay = needle ++ post := by
  induction needle with
  | nil => intro hay; simp [strStartsWith]
  | cons a as ih =>
    intro hay
    cases hay with
    | nil => simp [strStartsWith]
    | cons b bs =>
      simp only [strStartsWith, Bool.and_eq_true, beq_iff_eq, ih bs, List.cons_append,
        List.cons.injEq]
      constructor
      · rintro ⟨rfl, post, rfl⟩; exact ⟨post, rfl, rfl⟩
      · rintro ⟨post, rfl, rfl⟩; exact ⟨rfl, post, rfl⟩

theorem containsSub_iff (needle : List Char) :
    ∀ hay : List Char,
      listContainsSub needle hay = true ↔ ∃ pre post, hay = pre ++ needle ++ post := by
  intro hay
  induction hay with
  | nil =>
    simp only [listContainsSub, startsWith_iff]
    constructor
    · rintro ⟨post, h⟩; exact ⟨[], post, by simpa using h⟩
    · rintro ⟨pre, post, h⟩
      rcases List.append_eq_nil.mp (List.append_eq_nil.mp h.symm).1 with ⟨h1, h2⟩
      exact ⟨[], by simp [h2, (List.append_eq_nil.mp h.symm).2]⟩
  | cons c t ih =>
    simp only [listContainsSub, Bool.or_eq_true, startsWith_iff, ih]
    constructor
    · rintro (⟨post, h⟩ | ⟨pre, post, h⟩)
      · exact ⟨[], post, by simpa using h⟩
      · exact ⟨c :: pre, post, by simp [h]⟩
    · rintro ⟨pre, post, h⟩
      cases pre with
      | nil => exact Or.inl ⟨post, by simpa using h⟩
      | cons p pre =>
        simp only [List.cons_append, List.cons.injEq] at h
        exact Or.inr ⟨pre, post, h.2⟩

theorem selectedValue_some_lt (s : SessState) (v : String)
    (h : selectedValue s = some v) : s.current_question < 12 := by
  by_contra h12
  have hn : questions[s.current_question]? = none :=
    List.getElem?_eq_none (by rw [questions_length]; omega)
  rw [selectedValue, hn] at h
  exact Option.noConfusion h

theorem boolean_only_at_11 (n : Nat)
    (h : questionKind n = some QuestionType.Boolean) : n = 11 := by
  have hlt : n < 12 := by
    by_contra h12
    have hn : questions[n]? = none :=
      List.getElem?_eq_none (by rw [questions_length]; omega)
    rw [questionKind, hn] at h
    exact Option.noConfusion h
  interval_cases n <;> revert h <;> decide

theorem fieldMatches_theme (cfg : ArchConfig) (t : Theme) (i : Nat) (v : String) :
    fieldMatches { cfg with theme := t } i v ↔ fieldMatches cfg i v := by
  unfold fieldMatches
  rcases i with _ | _ | _ | _ | _ | _ | _ | _ | _ | _ | _ | _ | i <;> exact Iff.rfl

theorem writeField_self (cfg : ArchConfig) (n : Nat) (v : String) (hn : n < 12) :
    fieldMatches (writeField cfg n v) n v := by
  interval_cases n <;> exact rfl

theorem writeField_other (cfg : ArchConfig) (n i : Nat) (v w : String)
    (hn : n < 12) (hi : i < n) :
    fieldMatches (writeField cfg n v) i w ↔ fieldMatches cfg i w := by
  interval_cases n <;> interval_cases i <;> exact Iff.rfl

theorem enterStep_cases (s : SessState) :
    enterStep s = StepOut.crash ∧ selectedValue s = none ∨
      ∃ v, selectedValue s = some v ∧ enterStep s = commitStep s v := by
  cases hv : selectedValue s with
  | none => exact Or.inl ⟨by rw [enterStep, hv], rfl⟩
  | some v => exact Or.inr ⟨v, rfl, by rw [enterStep, hv]⟩

theorem commitStep_cont (s : SessState) (v : String) (s' : SessState)
    (h : commitStep s v = StepOut.cont s') :
    s.current_question + 1 < questions.length ∧
      s' = ⟨s.current_question + 1, 0, "", "",
        writeField s.config s.current_question v⟩ := by
  by_cases h12 : s.current_question + 1 ≥ questions.length
  · simp [commitStep, h12] at h
  · simp only [commitStep, if_neg h12, StepOut.cont.injEq] at h
    exact ⟨Nat.lt_of_not_ge h12, h.symm⟩

theorem commitStep_done (s : SessState) (v : String) (s' : SessState)
    (h : commitStep s v = StepOut.done s') :
    s.current_question + 1 ≥ questions.length ∧
      s' = ⟨s.current_question + 1, 0, "", "",
        writeField s.config s.current_question v⟩ := by
  by_cases h12 : s.current_question + 1 ≥ questions.length
  · simp only [commitStep, if_pos h12, StepOut.done.injEq] at h
    exact ⟨h12, h.symm⟩
  · simp [commitStep, h12] at h

theorem charInputStep_frame (s : SessState) (c : Char) :
    (∀ s', charInputStep s c = StepOut.cont s' →
      s'.current_question = s.current_question ∧ s'.config = s.config) ∧
    ∀ s', charInputStep s c ≠ StepOut.done s' := by
  rcases hq : questions[s.current_question]? with _ | ⟨p, qt⟩
  · rw [charInputStep, hq]
    exact ⟨fun s' h => StepOut.noConfusion h, fun s' h => StepOut.noConfusion h⟩
  · rw [charInputStep, hq]
    rcases qt with options | _ | _ <;>
      exact ⟨fun s' h => by injection h with h; subst h; exact ⟨rfl, rfl⟩,
        fun s' h => StepOut.noConfusion h⟩

theorem backspaceStep_frame (s : SessState) :
    (∀ s', backspaceStep s = StepOut.cont s' →
      s'.current_question = s.current_question ∧ s'.config = s.config) ∧
    ∀ s', backspaceStep s ≠ StepOut.done s' := by
  rcases hq : questions[s.current_question]? with _ | ⟨p, qt⟩
  · rw [backspaceStep, hq]
    exact ⟨fun s' h => StepOut.noConfusion h, fun s' h => StepOut.noConfusion h⟩
  · rw [backspaceStep, hq]
    rcases qt with options | _ | _ <;>
      exact ⟨fun s' h => by injection h with h; subst h; exact ⟨rfl, rfl⟩,
        fun s' h => StepOut.noConfusion h⟩

theorem arrowStep_frame (s : SessState) (isUp : Bool) :
    (∀ s', arrowStep s isUp = StepOut.cont s' →
      s'.current_question = s.current_question ∧ s'.config = s.config) ∧
    ∀ s', arrowStep s isUp ≠ StepOut.done s' := by
  rcases hq : questions[s.current_question]? with _ | ⟨p, qt⟩
  · rw [arrowStep, hq]
    exact ⟨fun s' h => StepOut.noConfusion h, fun s' h => StepOut.noConfusion h⟩
  · rw [arrowStep, hq]
    rcases qt with options | _ | _ <;>
      refine ⟨fun s' h => ?_, fun s' h => ?_⟩ <;>
      dsimp only at h <;>
      (try split at h) <;> (try split at h) <;> (try split at h) <;>
      first
        | exact StepOut.noConfusion h
        | (injection h with h; subst h; exact ⟨rfl, rfl⟩)

theorem step_nonEnter_frame (s : SessState) (k : KeyCode) (hk : k ≠ KeyCode.Enter) :
    (∀ s', step s k = StepOut.cont s' →
      s'.current_question = s.current_question ∧
        ∀ i v, fieldMatches s'.config i v ↔ fieldMatches s.config i v) ∧
    ∀ s', step s k ≠ StepOut.done s' := by
  cases k with
  | Enter => exact absurd rfl hk
  | Char c =>
    rw [step]
    split_ifs with h1 h2
    · constructor
      · rintro s' h
        injection h with h
        subst h
        exact ⟨rfl, fun i v => fieldMatches_theme s.config _ i v⟩
      · intro s' h; exact StepOut.noConfusion h
    · exact ⟨fun s' h => (nomatch h), fun s' h => nomatch h⟩
    · refine ⟨fun s' h => ?_, (charInputStep_frame s c).2⟩
      obtain ⟨ha, hb⟩ := (charInputStep_frame s c).1 s' h
      exact ⟨ha, fun i v => by rw [hb]⟩
  | Up =>
    refine ⟨fun s' h => ?_, (arrowStep_frame s true).2⟩
    obtain ⟨ha, hb⟩ := (arrowStep_frame s true).1 s' h
    exact ⟨ha, fun i v => by rw [hb]⟩
  | Down =>
    refine ⟨fun s' h => ?_, (arrowStep_frame s false).2⟩
    obtain ⟨ha, hb⟩ := (arrowStep_frame s false).1 s' h
    exact ⟨ha, fun i v => by rw [hb]⟩
  | Backspace =>
    refine ⟨fun s' h => ?_, (backspaceStep_frame s).2⟩
    obtain ⟨ha, hb⟩ := (backspaceStep_frame s).1 s' h
    exact ⟨ha, fun i v => by rw [hb]⟩
  | Other =>
    constructor
    · rintro s' h
      injection h with h
      subst h
      exact ⟨rfl, fun i v => Iff.rfl⟩
    · intro s' h; exact StepOut.noConfusion h

theorem commitLogAppend_nonEnter (s : SessState) (k : KeyCode)
    (log : List (Nat × String)) (hk : k ≠ KeyCode.Enter) :
    commitLogAppend s k log = log := by
  cases k <;> first | exact absurd rfl hk | rfl

theorem commitLogAppend_enter (s : SessState) (v : String)
    (log : List (Nat × String)) (hv : selectedValue s = some v) :
    commitLogAppend s KeyCode.Enter log = log ++ [(s.current_question, v)] := by
  simp [commitLogAppend, hv]

theorem runEvents_persisted_inv (evs : List KeyCode) :
    ∀ (s : SessState) (log : List (Nat × String)) (cfg : ArchConfig)
      (log' : List (Nat × String)),
      log.map Prod.fst = List.range s.current_question →
      (∀ p ∈ log, fieldMatches s.config p.1 p.2) →
      runEvents s evs log = (RunOut.persisted cfg, log') →
      log'.map Prod.fst = List.range 12 ∧ ∀ p ∈ log', fieldMatches cfg p.1 p.2 := by
  induction evs with
  | nil =>
    intro s log cfg log' h1 h2 h
    simp [runEvents] at h
  | cons k ks ih =>
    intro s log cfg log' h1 h2 h
    simp only [runEvents] at h
    by_cases hk : k = KeyCode.Enter
    · subst hk
      rcases enterStep_cases s with ⟨hcrash, hv⟩ | ⟨v, hv, hcommit⟩
      · have hstep : step s KeyCode.Enter = StepOut.crash := hcrash
        rw [hstep] at h
        simp at h
      · have hstep : step s KeyCode.Enter = commitStep s v := hcommit
        rw [hstep] at h
        have hn : s.current_question < 12 := selectedValue_some_lt s v hv
        have hlog : commitLogAppend s KeyCode.Enter log =
            log ++ [(s.current_question, v)] := commitLogAppend_enter s v log hv
        rcases hcs : commitStep s v with s2 | s2 | s2 | _
        · obtain ⟨hlt, hs2⟩ := commitStep_cont s v s2 hcs
          rw [hcs, hlog] at h
          refine ih s2 (log ++ [(s.current_question, v)]) cfg log' ?_ ?_ h
          · rw [hs2]
            simp [h1, List.range_succ]
          · intro p hp
            have hcfg2 : s2.config = writeField s.config s.current_question v := by
              rw [hs2]
            rcases List.mem_append.mp hp with hp1 | hp1
            · have hplt : p.1 < s.current_question := by
                have hm : p.1 ∈ log.map Prod.fst := List.mem_map_of_mem _ hp1
                rw [h1] at hm
                exact List.mem_range.mp hm
              rw [hcfg2]
              exact (writeField_other s.config _ p.1 v p.2 hn hplt).mpr (h2 p hp1)
            · have hp2 : p = (s.current_question, v) := by simpa using hp1
              subst hp2
              rw [hcfg2]
              exact writeField_self s.config s.current_question v hn
        · rw [hcs] at h
          simp at h
        · obtain ⟨hge, hs2⟩ := commitStep_done s v s2 hcs
          rw [hcs, hlog] at h
          simp only [Prod.mk.injEq, RunOut.persisted.injEq] at h
          obtain ⟨hcfg, hlog'⟩ := h
          subst hlog'
          have hcfg2 : cfg = writeField s.config s.current_question v := by
            rw [← hcfg, hs2]
          constructor
          · rw [List.map_append, h1]
            have h11 : s.current_question + 1 = 12 := by
              rw [questions_length] at hge
              omega
            rw [← h11, List.range_succ]
            rfl
          · intro p hp
            rcases List.mem_append.mp hp with hp1 | hp1
            · have hplt : p.1 < s.current_question := by
                have hm : p.1 ∈ log.map Prod.fst := List.mem_map_of_mem _ hp1
                rw [h1] at hm
                exact List.mem_range.mp hm
              rw [hcfg2]
              exact (writeField_other s.config _ p.1 v p.2 hn hplt).mpr (h2 p hp1)
            · have hp2 : p = (s.current_question, v) := by simpa using hp1
              subst hp2
              rw [hcfg2]
              exact writeField_self s.config s.current_question v hn
        · rw [hcs] at h
          simp at h
    · have hlog : commitLogAppend s k log = log := commitLogAppend_nonEnter s k log hk
      rcases hstep : step s k with s2 | s2 | s2 | _
      · rw [hstep, hlog] at h
        obtain ⟨hcur, hfm⟩ := (step_nonEnter_frame s k hk).1 s2 hstep
        refine ih s2 log cfg log' ?_ ?_ h
        · rw [h1, hcur]
        · intro p hp
          exact (hfm p.1 p.2).mpr (h2 p hp)
      · rw [hstep] at h
        simp at h
      · exact absurd hstep ((step_nonEnter_frame s k hk).2 s2)
      · rw [hstep] at h
        simp at h

/-! ### Claim theorems -/

/-- C1: the claim says that when the filter matches zero options of a
MultipleChoice question, Confirm is a guarded no-op leaving
`current_index` and the ResultRecord unchanged.  The source instead
indexes `filtered_options[selected_option]` on the empty filtered list
(main.rs line 450) and panics: at the Bootloader question with filter
"zzz" the visible set is empty and Enter crashes instead of no-opping. -/
theorem C1_confirm_on_empty_filter_panics :
    visibleOptionCount ⟨8, 0, "", "zzz", initialConfig⟩ = 0 ∧
    step ⟨8, 0, "", "zzz", initialConfig⟩ KeyCode.Enter = StepOut.crash :=
  ⟨rfl, rfl⟩

/-- C2: the claim says MoveDown only increments when
`selected_option < visible_option_count - 1`.  The source bounds arrows
by the UNFILTERED option count (main.rs lines 483-493): at the
Bootloader question with filter "gr" the visible set is `["grub"]`
(count 1), yet MoveDown raises `selected_option` to 1, outside
`[0, 1)`; a subsequent Confirm then panics out of bounds. -/
theorem C2_move_down_exceeds_visible_count :
    visibleOptionCount ⟨8, 0, "", "gr", initialConfig⟩ = 1 ∧
    step ⟨8, 0, "", "gr", initialConfig⟩ KeyCode.Down =
      StepOut.cont ⟨8, 1, "", "gr", initialConfig⟩ ∧
    step ⟨8, 1, "", "gr", initialConfig⟩ KeyCode.Enter = StepOut.crash :=
  ⟨rfl, rfl, rfl⟩

/-- C3: the claim says the terminal-restore steps in `main` execute even
when `run_app` returns an error.  In the source, `run_app(..)?`
(main.rs line 127) propagates the error before `disable_raw_mode`,
`LeaveAlternateScreen` and `show_cursor` (lines 130-136), so on the
error path none of the restore steps run; they run only on the Ok
path. -/
theorem C3_error_path_skips_terminal_restore :
    (mainCleanup (Except.ok ())).1.raw_mode_disabled = true ∧
    (mainCleanup (Except.ok ())).1.left_alternate_screen = true ∧
    (mainCleanup (Except.ok ())).1.cursor_shown = true ∧
    (mainCleanup (Except.error "failed to write arch_config.toml")).1.raw_mode_disabled
      = false ∧
    (mainCleanup (Except.error "failed to write arch_config.toml")).1.left_alternate_screen
      = false ∧
    (mainCleanup (Except.error "failed to write arch_config.toml")).2 =
      Except.error "failed to write arch_config.toml" :=
  ⟨rfl, rfl, rfl, rfl, rfl, rfl⟩

/-- C4: the visible option set is exactly the subsequence of the
catalog's options whose text contains the filter as a case-insensitive
substring, in the original relative order, without mutating the catalog
(filtering is a pure function of the unchanged option list); and the
concrete Bootloader example: filter "gr" yields exactly `["grub"]`, and
confirming then writes "grub" into the bootloader field. -/
theorem C4_filter_is_case_insensitive_substring_subsequence
    (options : List String) (filter : String) :
    List.Sublist (filterOptions options filter) options ∧
    (∀ o, o ∈ filterOptions options filter ↔
      o ∈ options ∧ specCaseInsensitiveSubstring o filter) ∧
    filterOptions ["grub", "systemd-boot"] "gr" = ["grub"] ∧
    ∀ cfg : ArchConfig,
      enterStep ⟨8, 0, "", "gr", cfg⟩ =
        StepOut.cont ⟨9, 0, "", "", { cfg with bootloader := "grub" }⟩ := by
  refine ⟨List.filter_sublist _, fun o => ?_, rfl, fun cfg => rfl⟩
  constructor
  · intro ho
    obtain ⟨ha, hb⟩ := List.mem_filter.mp ho
    exact ⟨ha, (containsSub_iff (rustToLowercase filter).data (rustToLowercase o).data).mp hb⟩
  · rintro ⟨ha, hb⟩
    exact List.mem_filter.mpr
      ⟨ha, (containsSub_iff (rustToLowercase filter).data (rustToLowercase o).data).mpr hb⟩

/-- C4 witness: the theorem applied to the Bootloader options and the
"gr" filter. -/
theorem C4_witness :
    filterOptions ["grub", "systemd-boot"] "gr" = ["grub"] :=
  (C4_filter_is_case_insensitive_substring_subsequence ["grub", "systemd-boot"] "gr").2.2.1

/-- C5: on Confirm, a FreeText question commits exactly the current
`input_value` buffer (including the empty string, with no validation),
and a Boolean question commits true exactly when `selected_option` is 0
(false when it is 1 or anything else): the committed string is
"true"/"false" from the Yes/No order, and the `enable_ssh` field parses
it back with `== "true"`. -/
theorem C5_confirm_answer_values (s : SessState) :
    (questionKind s.current_question = some QuestionType.FreeText →
      selectedValue s = some s.input_value) ∧
    (questionKind s.current_question = some QuestionType.Boolean →
      selectedValue s = some (if s.selected_option = 0 then "true" else "false") ∧
      ∀ s', enterStep s = StepOut.cont s' ∨ enterStep s = StepOut.done s' →
        (s'.config.enable_ssh = true ↔ s.selected_option = 0)) := by
  constructor
  · intro h
    rcases hq : questions[s.current_question]? with _ | ⟨p, qt⟩
    · rw [questionKind, hq] at h
      exact Option.noConfusion h
    · rw [questionKind, hq] at h
      rcases qt with options | _ | _
      · exact (nomatch h)
      · rw [selectedValue, hq]
      · exact (nomatch h)
  · intro h
    have h11 : s.current_question = 11 := boolean_only_at_11 _ h
    rcases s with ⟨cur, sel, inp, fil, cfg⟩
    have h11' : cur = 11 := h11
    subst h11'
    have he : enterStep ⟨11, sel, inp, fil, cfg⟩ =
        StepOut.done ⟨12, 0, "", "",
          { cfg with enable_ssh := (if sel = 0 then "true" else "false") == "true" }⟩ := rfl
    refine ⟨rfl, fun s' hor => ?_⟩
    rw [he] at hor
    rcases hor with hor | hor
    · exact (nomatch hor)
    · injection hor with hor
      subst hor
      by_cases hsel : sel = 0 <;> simp [hsel]

/-- C5 witness: at the Enable SSH question with `selected_option = 0`
the committed value is the string "true". -/
theorem C5_witness :
    selectedValue ⟨11, 0, "", "", initialConfig⟩ = some "true" :=
  ((C5_confirm_answer_values ⟨11, 0, "", "", initialConfig⟩).2 rfl).1

/-- C6: every successful Confirm transition (one that neither quits nor
panics) produces, in the same single step, a state with empty
`input_value` and `filter` buffers, `selected_option` reset to 0,
`current_question` advanced by exactly 1, and the config equal to the
old config with the committed value written into the field of the
question just answered. -/
theorem C6_confirm_clears_and_advances_atomically (s s' : SessState)
    (h : enterStep s = StepOut.cont s' ∨ enterStep s = StepOut.done s') :
    s'.input_value = "" ∧ s'.filter = "" ∧ s'.selected_option = 0 ∧
    s'.current_question = s.current_question + 1 ∧
    ∃ v, selectedValue s = some v ∧
      s'.config = writeField s.config s.current_question v := by
  rcases enterStep_cases s with ⟨hc, hv⟩ | ⟨v, hv, he⟩
  · rw [hc] at h
    rcases h with h | h
    · exact (nomatch h)
    · exact (nomatch h)
  · rw [he] at h
    rcases h with h | h
    · obtain ⟨hlt, hs'⟩ := commitStep_cont s v s' h
      subst hs'
      exact ⟨rfl, rfl, rfl, rfl, v, hv, rfl⟩
    · obtain ⟨hge, hs'⟩ := commitStep_done s v s' h
      subst hs'
      exact ⟨rfl, rfl, rfl, rfl, v, hv, rfl⟩

/-- C6 witness: confirming the first (Hostname) question from the
initial state clears the free-text buffer of the successor state. -/
theorem C6_witness :
    (⟨1, 0, "", "", initialConfig⟩ : SessState).input_value = "" :=
  (C6_confirm_clears_and_advances_atomically initialState
    ⟨1, 0, "", "", initialConfig⟩ (Or.inl rfl)).1

/-- C7: the tilde (quit) key terminates the session immediately: the
step returns from `run_app` with the state untouched (the in-progress
answer stays uncommitted), the remaining events are never processed,
and the run ends in the `quitOk` outcome, which carries no persisted
configuration — the persistence call after the loop is never reached. -/
theorem C7_quit_discards_everything (s : SessState) (evs : List KeyCode) :
    step s (KeyCode.Char '~') = StepOut.quit s ∧
    runEvents s (KeyCode.Char '~' :: evs) [] = (RunOut.quitOk s, []) ∧
    persistedOf (runEvents s (KeyCode.Char '~' :: evs) []).1 = none :=
  ⟨rfl, rfl, rfl⟩

/-- C8: any run that reaches persistence committed the 12 questions
exactly once each, in catalog order 0..11, and the persisted config
holds, for every committed pair, exactly the value committed at that
confirmation step (so no field is overwritten after being set); the
`persisted` outcome is produced by the single persistence call after
the loop. -/
theorem C8_complete_run_commits_all_fields (evs : List KeyCode)
    (cfg : ArchConfig) (log : List (Nat × String))
    (h : runEvents initialState evs [] = (RunOut.persisted cfg, log)) :
    log.map Prod.fst = List.range 12 ∧ ∀ p ∈ log, fieldMatches cfg p.1 p.2 :=
  runEvents_persisted_inv evs initialState [] cfg log rfl
    (fun p hp => absurd hp (List.not_mem_nil p)) h

/-- C8 witness: pressing Enter twelve times from the initial state
persists, with the commit log covering the indices 0..11 in order. -/
theorem C8_witness :
    ([(0, ""), (1, ""), (2, ""), (3, "UTC"), (4, "en_US.UTF-8"), (5, "us"),
      (6, "btrfs"), (7, "pacman"), (8, "grub"), (9, "gnome"), (10, "US"),
      (11, "true")] : List (Nat × String)).map Prod.fst = List.range 12 :=
  (C8_complete_run_commits_all_fields (List.replicate 12 KeyCode.Enter)
    ⟨"", "", "", "UTC", "en_US.UTF-8", "us", "btrfs", "pacman", "grub",
      "gnome", "US", true, Theme.default⟩
    [(0, ""), (1, ""), (2, ""), (3, "UTC"), (4, "en_US.UTF-8"), (5, "us"),
      (6, "btrfs"), (7, "pacman"), (8, "grub"), (9, "gnome"), (10, "US"),
      (11, "true")] rfl).1

/-- C9: cycling the theme three times from any of the three preset
themes returns it to its original value, and the theme-cycle key
changes only the theme: the step equals the record update that touches
`config.theme` alone, so `current_question`, `selected_option`, both
buffers and all twelve answer fields keep their previous values. -/
theorem C9_theme_cycle_period_three (t : Theme)
    (ht : t = Theme.default ∨ t = Theme.dark ∨ t = Theme.light) (s : SessState) :
    cycleTheme (cycleTheme (cycleTheme t)) = t ∧
    step s (KeyCode.Char '*') =
      StepOut.cont { s with config := { s.config with theme := cycleTheme s.config.theme } } ∧
    ∀ s', step s (KeyCode.Char '*') = StepOut.cont s' →
      s'.current_question = s.current_question ∧
      s'.selected_option = s.selected_option ∧
      s'.input_value = s.input_value ∧ s'.filter = s.filter ∧
      answersEq s'.config s.config := by
  refine ⟨?_, rfl, fun s' h => ?_⟩
  · rcases ht with rfl | rfl | rfl <;> rfl
  · injection h with h
    subst h
    exact ⟨rfl, rfl, rfl, rfl, rfl, rfl, rfl, rfl, rfl, rfl, rfl, rfl, rfl, rfl, rfl, rfl⟩

/-- C9 witness: three cycles from the Default theme give back the
Default theme. -/
theorem C9_witness :
    cycleTheme (cycleTheme (cycleTheme Theme.default)) = Theme.default :=
  (C9_theme_cycle_period_three Theme.default (Or.inl rfl) initialState).1

/-- C10: on the Boolean question, the text-input handler for any
character and the Backspace handler (main.rs lines 496-515) both fall
into the catchall arm and return the state completely unchanged.  (The
star and tilde characters are matched by the earlier ThemeCycle and
Quit arms of the key dispatch, so they never reach this text-input
handler.) -/
theorem C10_boolean_ignores_char_and_backspace (s : SessState) (c : Char)
    (h : questionKind s.current_question = some QuestionType.Boolean) :
    charInputStep s c = StepOut.cont s ∧ backspaceStep s = StepOut.cont s := by
  have h11 : s.current_question = 11 := boolean_only_at_11 _ h
  rcases s with ⟨cur, sel, inp, fil, cfg⟩
  have h11' : cur = 11 := h11
  subst h11'
  exact ⟨rfl, rfl⟩

/-- C10 witness: a letter typed at the Enable SSH question leaves the
state untouched. -/
theorem C10_witness :
    charInputStep ⟨11, 0, "", "", initialConfig⟩ 'a' =
      StepOut.cont ⟨11, 0, "", "", initialConfig⟩ :=
  (C10_boolean_ignores_char_and_backspace ⟨11, 0, "", "", initialConfig⟩ 'a' rfl).1
